import Mathlib

/-!
# Verification of the rgw_users / rgw_buckets Ansible modules

Shallow embedding of `plugins/modules/rgw_users.py` and
`plugins/modules/rgw_buckets.py`.  Python dictionaries whose values are
strings, integers or `None` are modelled by association lists over `PyVal`;
the backend (rgwadmin / boto3 client) is an oracle structure giving the
response of each call, and every invocation returns, besides its exit value,
the ordered trace of backend calls it issued.
-/

namespace Rgw

/-- A Python value as it occurs in the dictionaries handled by the modules:
`None`, a string, an integer, or a list (only compared against `[]`). -/
inductive PyVal where
  | none
  | str (s : String)
  | int (n : Int)
  | list (xs : List PyVal)

/-- Python `==` on `PyVal` (structural equality). -/
def PyVal.beq : PyVal → PyVal → Bool
  | .none, .none => true
  | .str a, .str b => a == b
  | .int a, .int b => a == b
  | .list as, .list bs => go as bs
  | _, _ => false
where
  go : List PyVal → List PyVal → Bool
    | [], [] => true
    | a :: as, b :: bs => PyVal.beq a b && go as bs
    | _, _ => false

instance : BEq PyVal := ⟨PyVal.beq⟩

theorem PyVal.beq_iff : ∀ (a b : PyVal), (PyVal.beq a b = true) ↔ a = b
  | .none, b => by cases b <;> simp [PyVal.beq]
  | .str s, b => by cases b <;> simp [PyVal.beq]
  | .int n, b => by cases b <;> simp [PyVal.beq]
  | .list as, .none => by simp [PyVal.beq]
  | .list as, .str _ => by simp [PyVal.beq]
  | .list as, .int _ => by simp [PyVal.beq]
  | .list [], .list [] => by simp [PyVal.beq, PyVal.beq.go]
  | .list [], .list (b :: bs) => by simp [PyVal.beq, PyVal.beq.go]
  | .list (a :: as), .list [] => by simp [PyVal.beq, PyVal.beq.go]
  | .list (a :: as), .list (b :: bs) => by
      have h1 := PyVal.beq_iff a b
      have h2 := PyVal.beq_iff (.list as) (.list bs)
      simp only [PyVal.beq, PyVal.beq.go] at h1 h2 ⊢
      rw [Bool.and_eq_true, h1, h2]
      constructor
      · rintro ⟨rfl, h⟩; simp_all
      · rintro h; injection h with h3; cases h3; simp_all

instance : DecidableEq PyVal :=
  fun a b => decidable_of_iff (PyVal.beq a b = true) (PyVal.beq_iff a b)

/-- A Python dict with string keys, as an association list in insertion
order.  All dicts built by the modules have pairwise distinct keys. -/
abbrev Dict := List (String × PyVal)

/-- `d[key]` as an optional lookup (first occurrence). -/
def dlookup : Dict → String → Option PyVal
  | [], _ => Option.none
  | (k, v) :: rest, key => if k == key then some v else dlookup rest key

/-- `d[key] = v`: replace the value at `key` if present, else append. -/
def dset : Dict → String → PyVal → Dict
  | [], k, v => [(k, v)]
  | (k', v') :: rest, k, v =>
      if k' == k then (k', v) :: rest else (k', v') :: dset rest k v

/-- Remove every entry with the given key (our dicts have unique keys). -/
def dremove (d : Dict) (k : String) : Dict :=
  d.filter (fun kv => kv.1 != k)

/-- Python `del d[key]` / `d.pop(key)`: `none` models the `KeyError` raised
when the key is absent. -/
def ddel (d : Dict) (k : String) : Option Dict :=
  if (dlookup d k).isSome then some (dremove d k) else Option.none

/-- Python `==` on dicts: same key set and equal values, order-irrelevant. -/
def dictBeq (a b : Dict) : Bool :=
  a.all (fun kv => dlookup b kv.1 == some kv.2) &&
  b.all (fun kv => dlookup a kv.1 == some kv.2)

/-- Python `==` between two dict-or-`None` values. -/
def optDictBeq : Option Dict → Option Dict → Bool
  | Option.none, Option.none => true
  | some a, some b => dictBeq a b
  | _, _ => false

end Rgw

namespace Rgw

/-! ## rgw_users.py -/

/-- One entry of the backend user's `keys` list. -/
structure RGWKey where
  access_key : String
  secret_key : String
deriving DecidableEq

/-- The user object returned by `rgw.get_user`, restricted to the fields the
module reads.  Field values are kept as `PyVal` since the module copies them
verbatim into its dict. -/
structure RGWUser where
  user_id : PyVal
  tenant : PyVal
  display_name : PyVal
  email : PyVal
  max_buckets : PyVal
  suspended : PyVal
  keys : List RGWKey
deriving DecidableEq

/-- Outcome of the backend `rgw.get_user` call.  `raiseOther` is any
exception other than `NoSuchUser`, which `get_user` does not catch. -/
inductive GetUserResp where
  | found (u : RGWUser)
  | noSuchUser
  | raiseOther (code : String)
deriving DecidableEq

/-- Outcome of `rgw.create_user` / `rgw.modify_user`: the keys list of the
returned user object, or a raised `KeyExists` / other `RGWAdminException`. -/
inductive MutResp where
  | ok (keys : List RGWKey)
  | keyExists (code : String)
  | rgwError (code : String)
deriving DecidableEq

/-- Outcome of `rgw.remove_key` / `rgw.remove_user`. -/
inductive SimpleResp where
  | ok
  | rgwError (code : String)
deriving DecidableEq

/-- Outcome of the initial `rgw.get_usage` connectivity probe. -/
inductive UsageResp where
  | ok
  | serverDown
  | rgwError (code : String)
deriving DecidableEq

/-- Oracle for one invocation: the response each backend call would get. -/
structure UserBackend where
  usageResp : UsageResp
  getUserResp : GetUserResp
  createResp : MutResp
  modifyResp : MutResp
  removeKeyResp : SimpleResp
  removeUserResp : SimpleResp
deriving DecidableEq

/-- The module parameters relevant to the reconciliation logic (connection
parameters only feed the `RGWAdmin` constructor and are omitted). -/
structure UserParams where
  state : String
  user_id : String
  user_tenant : Option String
  user_display_name : Option String
  user_email : Option String
  user_access_key : Option String
  user_secret_key : Option String
  user_max_buckets : Int
  user_suspended : Int
  admin_caps : Option String
deriving DecidableEq

/-- The module's mutable `result` dict; its keys are statically known. -/
structure RResult where
  changed : Bool
  msg : Option String
  error_messages : List String
  uid : Option String
  access_key : Option String
  secret_key : Option String
  diff : Option (Option Dict × Option Dict)
deriving DecidableEq

/-- An unhandled Python exception aborting the invocation. -/
inductive Crash where
  | uncaught (code : String)
  | keyError (key : String)
  | indexError
  | noneSubscript
deriving DecidableEq

/-- How the invocation exits through the Ansible module object. -/
inductive ModExit where
  | exitJson (r : RResult)
  | failValidation
  | failServerDown
  | failUsage (code : String)
  | failErrors (msgs : List String)
deriving DecidableEq

/-- A backend call, with the arguments the module passes. -/
inductive Call where
  | getUsage
  | getUser (uid : String)
  | createUser (params : Dict)
  | modifyUser (params : Dict)
  | removeKey (uid : String) (old_access_key : PyVal)
  | removeUser (uid : String)
deriving DecidableEq

/-- `Option String` parameter as stored in a dict. -/
def optStr : Option String → PyVal
  | Option.none => .none
  | some s => .str s

/-- The effective user identifier: `tenant$user_id` when a tenant is set,
else `user_id` (first lines of `get_user_params`). -/
def effUid (p : UserParams) : String :=
  match p.user_tenant with
  | Option.none => p.user_id
  | some t => t ++ "$" ++ p.user_id

/-- `get_user_params` (rgw_users.py:236-259). -/
def get_user_params (p : UserParams) (add_user_id : Bool) : Dict :=
  let np : Dict := [("uid", .str (effUid p)),
    ("display_name", optStr p.user_display_name),
    ("email", optStr p.user_email),
    ("max_buckets", .int p.user_max_buckets),
    ("suspended", .int p.user_suspended),
    ("user_caps", optStr p.admin_caps)]
  let np := if add_user_id then
      dset (dset np "user_id" (.str p.user_id)) "tenant" (optStr p.user_tenant)
    else np
  match p.user_access_key with
  | Option.none => np
  | some ak => dset (dset np "access_key" (.str ak)) "secret_key" (optStr p.user_secret_key)

/-- The normalization loop of `get_user` (rgw_users.py:169-171): fields equal
to `""`, `"None"` or `[]` become `None`. -/
def normVal (v : PyVal) : PyVal :=
  if v == .str "" || v == .str "None" || v == .list [] then .none else v

/-- `get_user` (rgw_users.py:154-179): only `NoSuchUser` is caught (yielding
`None`); any other exception propagates (modelled as a `Crash`).  The
`access_key`/`secret_key` fields are added after the normalization loop, and
only when the backend user has at least one key. -/
def get_user (resp : GetUserResp) (result : RResult) :
    Except Crash (Option Dict × RResult) :=
  match resp with
  | .raiseOther code => .error (.uncaught code)
  | .noSuchUser => .ok (Option.none, result)
  | .found u =>
    let userout : Dict := [("user_id", u.user_id), ("tenant", u.tenant),
      ("display_name", u.display_name), ("email", u.email),
      ("max_buckets", u.max_buckets), ("suspended", u.suspended)]
    let userout := userout.map (fun kv => (kv.1, normVal kv.2))
    match u.keys with
    | [] => .ok (some userout, result)
    | k :: _ =>
      let userout := dset (dset userout "access_key" (.str k.access_key))
        "secret_key" (.str k.secret_key)
      .ok (some userout,
        { result with
            access_key := some k.access_key
            secret_key := some k.secret_key })

/-- `create_user` (rgw_users.py:192-206); reading `newuser["keys"][0]` on a
successful call with an empty keys list is an `IndexError`. -/
def create_user (resp : MutResp) (result : RResult) : Except Crash RResult :=
  match resp with
  | .keyExists code => .ok { result with
      msg := some "Access_key not unique"
      error_messages := result.error_messages ++ ["Access_key not unique", code] }
  | .rgwError code => .ok { result with
      msg := some code
      error_messages := result.error_messages ++ [code] }
  | .ok [] => .error .indexError
  | .ok (k :: _) => .ok { result with
      access_key := some k.access_key
      secret_key := some k.secret_key }

/-- `update_user` (rgw_users.py:219-233), same shape as `create_user`. -/
def update_user (resp : MutResp) (result : RResult) : Except Crash RResult :=
  match resp with
  | .keyExists code => .ok { result with
      msg := some "Access_key not unique"
      error_messages := result.error_messages ++ ["Access_key not unique", code] }
  | .rgwError code => .ok { result with
      msg := some code
      error_messages := result.error_messages ++ [code] }
  | .ok [] => .error .indexError
  | .ok (k :: _) => .ok { result with
      access_key := some k.access_key
      secret_key := some k.secret_key }

/-- `remove_key` (rgw_users.py:209-216): failures only append an error. -/
def remove_key (resp : SimpleResp) (result : RResult) : RResult :=
  match resp with
  | .ok => result
  | .rgwError code => { result with
      msg := some code
      error_messages := result.error_messages ++ [code] }

/-- `delete_user` (rgw_users.py:182-189): failures only append an error. -/
def delete_user (resp : SimpleResp) (result : RResult) : RResult :=
  match resp with
  | .ok => result
  | .rgwError code => { result with
      msg := some code
      error_messages := result.error_messages ++ [code] }

/-- The `result` dict as initialised by `main` (rgw_users.py:288-292, plus
`result["uid"]` from line 314). -/
def initResult (p : UserParams) : RResult :=
  { changed := false
    msg := Option.none
    error_messages := []
    uid := some (effUid p)
    access_key := Option.none
    secret_key := Option.none
    diff := Option.none }

/-- Lines 318-321 of `main`: when the desired spec does not manage the
credentials, `del before_user['access_key']` / `['secret_key']` — a
`KeyError` when the observed user has no such field. -/
def stripUnmanagedCreds (p : UserParams) (before : Option Dict) :
    Except Crash (Option Dict) :=
  if p.user_access_key.isNone then
    match before with
    | Option.none => .ok Option.none
    | some d =>
      match ddel d "access_key" with
      | Option.none => .error (.keyError "access_key")
      | some d1 =>
        match ddel d1 "secret_key" with
        | Option.none => .error (.keyError "secret_key")
        | some d2 => .ok (some d2)
  else .ok before

/-- The fetch step followed by the credential strip, as `main` performs them
(rgw_users.py:316-321). -/
def fetchAndStrip (p : UserParams) (be : UserBackend) : Except Crash (Option Dict) :=
  match get_user be.getUserResp (initResult p) with
  | .error c => .error c
  | .ok (before, _) => stripUnmanagedCreds p before

/-- The tail of every branch of `main`: fail when any error message has
accumulated, else exit successfully (rgw_users.py:356-359, also reached via
line 341 and the per-branch returns). -/
def finishStep (r : RResult) (t : List Call) : Except Crash ModExit × List Call :=
  if r.error_messages.length > 0 then (.ok (.failErrors r.error_messages), t)
  else (.ok (.exitJson r), t)

/-- Lines 323-338 of `main`: set `changed` (and, when diff reporting is on,
`diff`) from the comparison of the observed dict with
`newuser_params_wo_caps` for `state=present`, and from bare existence for
`state=absent`. -/
def diffStep (p : UserParams) (diffMode : Bool) (before_user : Option Dict)
    (newuser_params_wo_caps : Dict) (result1 : RResult) : RResult :=
  let result2 :=
    if p.state == "present" &&
        !(optDictBeq before_user (some newuser_params_wo_caps)) then
      { result1 with
        changed := true
        diff := if diffMode then
            some (before_user, some newuser_params_wo_caps)
          else result1.diff }
    else result1
  let result3 :=
    if p.state == "absent" && before_user.isSome then
      { result2 with
        changed := true
        diff := if diffMode then some (before_user, Option.none)
          else result2.diff }
    else result2
  result3

/-- Lines 346-354 of `main` (the mutating step, entered only when not in
check mode), each branch ending in the final error check.  The branch at
line 351 compares against `newuser_params_user_id` (which by then has lost
its `uid` key); `before_user["access_key"]` at line 352 is a `KeyError`
when the observed dict has no such key, and is only evaluated when the
desired dict has one (Python short-circuit `and`). -/
def applyStep (p : UserParams) (be : UserBackend) (before_user : Option Dict)
    (newuser_params newuser_params_user_id : Dict) (uid : String)
    (result3 : RResult) (t2 : List Call) : Except Crash ModExit × List Call :=
  if result3.changed then
    if before_user.isNone && p.state == "present" then
      match create_user be.createResp result3 with
      | .error c => (.error c, t2 ++ [Call.createUser newuser_params])
      | .ok r4 => finishStep r4 (t2 ++ [Call.createUser newuser_params])
    else if before_user.isSome && p.state == "absent" then
      finishStep (delete_user be.removeUserResp result3) (t2 ++ [Call.removeUser uid])
    else if !(optDictBeq before_user (some newuser_params_user_id)) then
      match dlookup newuser_params_user_id "access_key" with
      | some desired_ak =>
        match before_user with
        | Option.none => (.error .noneSubscript, t2)
        | some bu =>
          match dlookup bu "access_key" with
          | Option.none => (.error (.keyError "access_key"), t2)
          | some old_ak =>
            if old_ak != desired_ak then
              match update_user be.modifyResp (remove_key be.removeKeyResp result3) with
              | .error c =>
                  (.error c,
                   t2 ++ [Call.removeKey uid old_ak, Call.modifyUser newuser_params])
              | .ok r5 =>
                  finishStep r5
                    (t2 ++ [Call.removeKey uid old_ak, Call.modifyUser newuser_params])
            else
              match update_user be.modifyResp result3 with
              | .error c => (.error c, t2 ++ [Call.modifyUser newuser_params])
              | .ok r4 => finishStep r4 (t2 ++ [Call.modifyUser newuser_params])
      | Option.none =>
        match update_user be.modifyResp result3 with
        | .error c => (.error c, t2 ++ [Call.modifyUser newuser_params])
        | .ok r4 => finishStep r4 (t2 ++ [Call.modifyUser newuser_params])
    else finishStep result3 t2
  else finishStep result3 t2

/-- `main` of rgw_users.py (lines 262-359), returning the exit value (or the
unhandled exception) together with the ordered trace of backend calls.

Faithfulness notes:
* `AnsibleModule` validation: `state` must be one of the declared choices and
  `user_access_key`/`user_secret_key` are `required_together`.
* `newuser_params_wo_caps` is copied from `newuser_params_user_id` *before*
  `uid` is popped from the latter (lines 311-313), so the copy keeps its
  `"uid"` entry while `newuser_params_user_id` loses it.  Both pops are on
  keys present by construction, so plain removal models them.
* The trace records a call even when its response makes the run crash
  afterwards (the call was issued before the exception). -/
def rgw_users_main (p : UserParams) (checkMode diffMode : Bool)
    (be : UserBackend) : Except Crash ModExit × List Call :=
  if p.state != "present" && p.state != "absent" then (.ok .failValidation, [])
  else if p.user_access_key.isSome != p.user_secret_key.isSome then
    (.ok .failValidation, [])
  else
    match be.usageResp with
    | .serverDown => (.ok .failServerDown, [Call.getUsage])
    | .rgwError code => (.ok (.failUsage code), [Call.getUsage])
    | .ok =>
      let newuser_params := get_user_params p false
      let newuser_params_user_id0 := get_user_params p true
      let newuser_params_wo_caps := dremove newuser_params_user_id0 "user_caps"
      let newuser_params_user_id := dremove newuser_params_user_id0 "uid"
      let uid := effUid p
      let t2 := [Call.getUsage, Call.getUser uid]
      match get_user be.getUserResp (initResult p) with
      | .error c => (.error c, t2)
      | .ok (before_user0, result1) =>
        match stripUnmanagedCreds p before_user0 with
        | .error c => (.error c, t2)
        | .ok before_user =>
          let result3 := diffStep p diffMode before_user newuser_params_wo_caps result1
          if result3.error_messages.length > 0 then
            (.ok (.failErrors result3.error_messages), t2)
          else if checkMode then (.ok (.exitJson result3), t2)
          else applyStep p be before_user newuser_params newuser_params_user_id
            uid result3 t2

/-- Project the result out of a successful `exit_json` termination. -/
def exitResult : Except Crash ModExit × List Call → Option RResult
  | (.ok (.exitJson r), _) => some r
  | _ => Option.none

/-- The `changed` field of a successful `exit_json` termination. -/
def exitChanged (out : Except Crash ModExit × List Call) : Option Bool :=
  (exitResult out).map RResult.changed

/-- Calls that mutate backend state (everything except the two reads). -/
def isMutatingCall : Call → Bool
  | .getUsage => false
  | .getUser _ => false
  | .createUser _ => true
  | .modifyUser _ => true
  | .removeKey _ _ => true
  | .removeUser _ => true

/-- The mutating subtrace, in order. -/
def mutCalls (t : List Call) : List Call := t.filter isMutatingCall

end Rgw

namespace Rgw

/-! ## rgw_buckets.py -/

/-- The module parameters of rgw_buckets.py relevant to its logic
(credentials/region/SSL flags only feed the boto3 client constructors). -/
structure BucketParams where
  state : String
  bucket_name : Option String
  policy_name : Option String
  policy_document : Option String
  policy_arn : Option String
  host : Option String
  port : Option Int
deriving DecidableEq

/-- Outcome of one boto3 call: success, or a raised `ClientError`. -/
inductive BResp where
  | ok
  | clientError (msg : String)
deriving DecidableEq

/-- Oracle for one invocation of rgw_buckets.py. -/
structure BucketBackend where
  createBucketResp : BResp
  deleteBucketResp : BResp
  createPolicyResp : BResp
  deletePolicyResp : BResp
deriving DecidableEq

/-- A boto3 call issued by rgw_buckets.py (the module issues no reads). -/
inductive BCall where
  | createBucket (name : String)
  | deleteBucket (name : String)
  | createPolicy (name document : String)
  | deletePolicy (arn : String)
deriving DecidableEq

/-- The `result` dict of rgw_buckets.py. -/
structure BResult where
  changed : Bool
  error_messages : List String
deriving DecidableEq

/-- How an rgw_buckets.py invocation exits. -/
inductive BExit where
  | exitJson (r : BResult)
  | failValidation
  | failErrors (msgs : List String)
deriving DecidableEq

/-- `create_bucket` (rgw_buckets.py:168-173): sets `changed` on success,
appends the `ClientError` message on failure. -/
def create_bucket (resp : BResp) (r : BResult) : BResult :=
  match resp with
  | .ok => { r with changed := true }
  | .clientError e => { r with error_messages := r.error_messages ++ [e] }

/-- `delete_bucket` (rgw_buckets.py:175-180). -/
def delete_bucket (resp : BResp) (r : BResult) : BResult :=
  match resp with
  | .ok => { r with changed := true }
  | .clientError e => { r with error_messages := r.error_messages ++ [e] }

/-- `create_policy` (rgw_buckets.py:182-190). -/
def create_policy (resp : BResp) (r : BResult) : BResult :=
  match resp with
  | .ok => { r with changed := true }
  | .clientError e => { r with error_messages := r.error_messages ++ [e] }

/-- `delete_policy` (rgw_buckets.py:192-197). -/
def delete_policy (resp : BResp) (r : BResult) : BResult :=
  match resp with
  | .ok => { r with changed := true }
  | .clientError e => { r with error_messages := r.error_messages ++ [e] }

/-- `main` of rgw_buckets.py (lines 199-265).  The module declares
`supports_check_mode=True` but its body never consults `module.check_mode`,
so the `checkMode` argument is deliberately unused, exactly as in the
source; no backend read is ever performed before the mutating calls. -/
def rgw_buckets_main (p : BucketParams) (checkMode : Bool)
    (be : BucketBackend) : BExit × List BCall :=
  if p.state != "present" && p.state != "absent" then (.failValidation, [])
  else if p.host.isSome != p.port.isSome then (.failValidation, [])
  else
    let _ := checkMode
    let r0 : BResult := { changed := false, error_messages := [] }
    let step :=
      if p.state == "present" then
        let s1 :=
          match p.bucket_name with
          | some n =>
              if n != "" then (create_bucket be.createBucketResp r0, [BCall.createBucket n])
              else (r0, ([] : List BCall))
          | Option.none => (r0, [])
        match p.policy_name, p.policy_document with
        | some pn, some pd =>
            if pn != "" && pd != "" then
              (create_policy be.createPolicyResp s1.1, s1.2 ++ [BCall.createPolicy pn pd])
            else s1
        | _, _ => s1
      else if p.state == "absent" then
        let s1 :=
          match p.bucket_name with
          | some n =>
              if n != "" then (delete_bucket be.deleteBucketResp r0, [BCall.deleteBucket n])
              else (r0, ([] : List BCall))
          | Option.none => (r0, [])
        match p.policy_arn with
        | some arn =>
            if arn != "" then
              (delete_policy be.deletePolicyResp s1.1, s1.2 ++ [BCall.deletePolicy arn])
            else s1
        | Option.none => s1
      else (r0, [])
    if step.1.error_messages.length > 0 then (.failErrors step.1.error_messages, step.2)
    else (.exitJson step.1, step.2)

end Rgw

namespace Rgw

/-! ## Derived notions used by the verification -/

/-- The comparable (normalized) desired user spec per the specification's
step 2: the module's desired-params dict with the bookkeeping keys that can
never occur in an observed dict (`uid`, `user_caps`) stripped. -/
def userDesiredComparable (p : UserParams) : Dict :=
  dremove (dremove (get_user_params p true) "user_caps") "uid"

/-- Refinement target following the specification's words (§4.1 step 3):
`changed = (observed != desired_normalized)` when `desiredState` is
`present`, and `changed = (observed != null)` when it is `absent`. -/
def specChangedUser (state : String) (observed : Option Dict)
    (desiredNormalized : Dict) : Bool :=
  if state == "present" then !(optDictBeq observed (some desiredNormalized))
  else observed.isSome

/-- Whether a call is addressed to the invocation's effective uid (the two
calls that carry no resource identifier are vacuously fine; for
create/modify the uid travels inside the params dict). -/
def callUidOk (p : UserParams) : Call → Bool
  | .getUsage => true
  | .getUser u => u == effUid p
  | .createUser d => dlookup d "uid" == some (.str (effUid p))
  | .modifyUser d => dlookup d "uid" == some (.str (effUid p))
  | .removeKey u _ => u == effUid p
  | .removeUser u => u == effUid p

/-- Every call issued before the first `getUser` fetch is non-mutating. -/
def noMutBeforeFetch : List Call → Bool
  | [] => true
  | Call.getUser _ :: _ => true
  | c :: rest => !isMutatingCall c && noMutBeforeFetch rest

/-! ## Dictionary lemmas -/

theorem dlookup_dremove_self (d : Dict) (k : String) :
    dlookup (dremove d k) k = Option.none := by
  induction d with
  | nil => rfl
  | cons kv rest ih =>
    simp only [dremove, List.filter_cons] at ih ⊢
    by_cases h : kv.1 = k
    · simp [h, ih]
    · have hb : (kv.1 != k) = true := by simp [h]
      have hb2 : (kv.1 == k) = false := by simp [h]
      simp [hb, dlookup, hb2, ih]

theorem dlookup_dremove_ne (d : Dict) (k0 k : String) (h : k ≠ k0) :
    dlookup (dremove d k0) k = dlookup d k := by
  induction d with
  | nil => rfl
  | cons kv rest ih =>
    simp only [dremove, List.filter_cons] at ih ⊢
    by_cases hk : kv.1 = k0
    · have hb : (kv.1 != k0) = false := by simp [hk]
      have hb2 : (kv.1 == k) = false := by
        simp only [beq_eq_false_iff_ne]
        rw [hk]; exact fun e => h e.symm
      simp [hb, dlookup, hb2, ih]
    · have hb : (kv.1 != k0) = true := by simp [hk]
      simp only [hb, if_true, dlookup]
      by_cases hk2 : kv.1 = k
      · simp [hk2, dlookup]
      · have hb2 : (kv.1 == k) = false := by simp [hk2]
        simp [hb2, dlookup, ih]

theorem all_lookup_false_of_missing (a b : Dict) (k0 : String)
    (hmem : (dlookup b k0).isSome) (hmiss : dlookup a k0 = Option.none) :
    (b.all fun kv => dlookup a kv.1 == some kv.2) = false := by
  induction b with
  | nil => simp [dlookup] at hmem
  | cons kv rest ih =>
    simp only [dlookup] at hmem
    by_cases hk : kv.1 = k0
    · simp only [List.all_cons, Bool.and_eq_false_iff]
      exact Or.inl (by rw [hk, hmiss]; rfl)
    · have hb : (kv.1 == k0) = false := by simp [hk]
      simp only [hb, Bool.false_eq_true, if_false] at hmem
      simp only [List.all_cons, Bool.and_eq_false_iff]
      exact Or.inr (ih hmem)

/-- Python dict inequality witnessed by a key present in `b`, missing in
`a`. -/
theorem dictBeq_false_of_missing (a b : Dict) (k0 : String)
    (hmem : (dlookup b k0).isSome) (hmiss : dlookup a k0 = Option.none) :
    dictBeq a b = false := by
  unfold dictBeq
  rw [all_lookup_false_of_missing a b k0 hmem hmiss, Bool.and_false]

end Rgw

namespace Rgw

/-! ## Concrete invocations used by the claims -/

/-- Desired user spec: `alice`, no tenant, display name `Alice`, defaults for
everything else, credentials unmanaged. -/
def convergedParams : UserParams :=
  { state := "present"
    user_id := "alice"
    user_tenant := Option.none
    user_display_name := some "Alice"
    user_email := Option.none
    user_access_key := Option.none
    user_secret_key := Option.none
    user_max_buckets := 1000
    user_suspended := 0
    admin_caps := Option.none }

/-- Backend user exactly matching `convergedParams` after normalization
(empty tenant and the literal string `"None"` email normalize to `None`). -/
def convergedUser : RGWUser :=
  { user_id := .str "alice"
    tenant := .str ""
    display_name := .str "Alice"
    email := .str "None"
    max_buckets := .int 1000
    suspended := .int 0
    keys := [⟨"AK", "SK"⟩] }

/-- Healthy backend holding exactly the desired user. -/
def convergedBackend : UserBackend :=
  { usageResp := .ok
    getUserResp := .found convergedUser
    createResp := .ok [⟨"AK", "SK"⟩]
    modifyResp := .ok [⟨"AK", "SK"⟩]
    removeKeyResp := .ok
    removeUserResp := .ok }

/-- The observed dict the module computes for `convergedUser` after the
normalization loop and the unmanaged-credential strip. -/
def convergedObserved : Dict :=
  [("user_id", .str "alice"), ("tenant", .none), ("display_name", .str "Alice"),
   ("email", .none), ("max_buckets", .int 1000), ("suspended", .int 0)]

/-- `state=absent` variant of the desired spec. -/
def absentParams : UserParams := { convergedParams with state := "absent" }

/-- Healthy backend on which the user does not exist. -/
def absentBackend : UserBackend := { convergedBackend with getUserResp := .noSuchUser }

/-- Backend user that exists but has zero credential keys. -/
def zeroKeyUser : RGWUser := { convergedUser with keys := [] }

/-- Healthy backend whose user has zero keys. -/
def zeroKeyBackend : UserBackend := { convergedBackend with getUserResp := .found zeroKeyUser }

/-- Desired spec that explicitly manages the credential pair. -/
def managedKeyParams : UserParams :=
  { convergedParams with
    user_access_key := some "NEWAK"
    user_secret_key := some "NEWSK" }

/-- Bucket creation request `my-test-bucket`. -/
def bucketPresentParams : BucketParams :=
  { state := "present"
    bucket_name := some "my-test-bucket"
    policy_name := Option.none
    policy_document := Option.none
    policy_arn := Option.none
    host := Option.none
    port := Option.none }

/-- Bucket deletion request for the same name. -/
def bucketAbsentParams : BucketParams := { bucketPresentParams with state := "absent" }

/-- boto3 backend on which every call succeeds. -/
def bucketOkBackend : BucketBackend :=
  { createBucketResp := .ok
    deleteBucketResp := .ok
    createPolicyResp := .ok
    deletePolicyResp := .ok }

/-- boto3 backend on which the bucket does not exist, so `delete_bucket`
raises `ClientError` with a `NoSuchBucket` message. -/
def bucketNoSuchBackend : BucketBackend :=
  { bucketOkBackend with deleteBucketResp := .clientError "NoSuchBucket" }

end Rgw

namespace Rgw

/-! ## Claims -/

/-- Claim C1 (code bug).  The claim says `changed` is true iff the
normalized observed state differs from the normalized desired spec.  On a
backend whose user already equals the desired spec after normalization, the
module still reports `changed = true` (and the spec-side diff
`specChangedUser` is `false` there): `newuser_params_wo_caps` is copied at
rgw_users.py:311 *before* `uid` is popped at line 313, so the comparison
dict keeps a `"uid"` key no observed dict ever has and the equality at line
324 can never hold. -/
theorem C1_changed_true_on_converged_backend :
    exitChanged (rgw_users_main convergedParams false false convergedBackend) = some true ∧
    fetchAndStrip convergedParams convergedBackend = .ok (some convergedObserved) ∧
    specChangedUser "present" (some convergedObserved)
      (userDesiredComparable convergedParams) = false := by
  refine ⟨rfl, rfl, ?_⟩
  decide

/-- Claim C2 (code bug).  In check mode (`checkMode = true`) the bucket
variant still issues the mutating `create_bucket` call: rgw_buckets.py
declares `supports_check_mode=True` (line 222) yet its body never consults
`module.check_mode`. -/
theorem C2_check_mode_still_mutates_buckets :
    rgw_buckets_main bucketPresentParams true bucketOkBackend =
      (.exitJson { changed := true, error_messages := [] },
       [BCall.createBucket "my-test-bucket"]) := rfl

/-- Claim C3, counterexample.  For the bucket variant, `state=absent` with a
non-existing bucket issues the mutating `delete_bucket` call anyway and the
resulting `ClientError` is reported as a failure — contradicting the claim
that such an invocation issues no mutating call and reports no error. -/
theorem C3_counterexample_bucket_absent_missing :
    rgw_buckets_main bucketAbsentParams false bucketNoSuchBackend =
      (.failErrors ["NoSuchBucket"], [BCall.deleteBucket "my-test-bucket"]) := rfl

/-- Claim C5, counterexample.  The bucket variant issues its mutating call
as the very first backend interaction of the invocation — no read of
observed state ever precedes it (the module performs no reads at all). -/
theorem C5_counterexample_bucket_no_fetch :
    rgw_buckets_main bucketPresentParams false bucketOkBackend =
      (.exitJson { changed := true, error_messages := [] },
       [BCall.createBucket "my-test-bucket"]) := rfl

/-- Claim C6 (code bug).  Idempotence fails: on a backend already equal to
the desired spec (the state after a successful first run), a repeated
identical invocation still reports `changed = true` and issues the
`modify_user` mutating call, for the same copy-before-pop reason as C1. -/
theorem C6_second_identical_run_still_mutates :
    exitChanged (rgw_users_main convergedParams false false convergedBackend) = some true ∧
    mutCalls (rgw_users_main convergedParams false false convergedBackend).2 =
      [Call.modifyUser (get_user_params convergedParams false)] := ⟨rfl, rfl⟩

/-- Claim C8, counterexample.  With unmanaged credentials
(`user_access_key = None`) and an observed user that has zero credential
keys, the unconditional `del before_user['access_key']` at rgw_users.py:320
raises `KeyError` — the invocation crashes before any comparison, so the
claimed "fields are removed before comparison" does not describe this
invocation. -/
theorem C8_counterexample_zero_keys_crash :
    convergedParams.user_access_key = Option.none ∧
    zeroKeyUser.keys = [] ∧
    (rgw_users_main convergedParams false false zeroKeyBackend).1 =
      .error (.keyError "access_key") := ⟨rfl, rfl, rfl⟩

/-- Claim C9, counterexample.  With diff reporting requested
(`diffMode = true`), `state=absent` and no observed user, the result carries
no `diff` pair at all — the module only attaches `diff` inside its
`changed = true` branches (rgw_users.py:326-338), contradicting the claim
that the pair is attached regardless of whether a mutation will occur. -/
theorem C9_counterexample_no_diff_when_unchanged :
    rgw_users_main absentParams false true absentBackend =
      (.ok (.exitJson (initResult absentParams)),
       [Call.getUsage, Call.getUser "alice"]) ∧
    (initResult absentParams).diff = Option.none ∧
    (initResult absentParams).changed = false := ⟨rfl, rfl, rfl⟩

/-- Claim C10 (confirmed).  With `state=present`, an explicitly managed
credential pair, and an observed user that exists with zero credential keys,
the update branch evaluates `before_user["access_key"]` (rgw_users.py:352)
on a dict without that key: the invocation dies with a `KeyError` instead of
producing a result. -/
theorem C10_update_branch_keyerror :
    managedKeyParams.state = "present" ∧
    managedKeyParams.user_access_key = some "NEWAK" ∧
    zeroKeyUser.keys = [] ∧
    (rgw_users_main managedKeyParams false false zeroKeyBackend).1 =
      .error (.keyError "access_key") := ⟨rfl, rfl, rfl, rfl⟩

end Rgw

namespace Rgw

/-! ## Proof infrastructure -/

instance : LawfulBEq PyVal where
  eq_of_beq h := (PyVal.beq_iff _ _).1 h
  rfl := (PyVal.beq_iff _ _).2 rfl

theorem finishStep_trace (r : RResult) (t : List Call) : (finishStep r t).2 = t := by
  unfold finishStep; split <;> rfl

theorem ite_snd (c : Prop) [Decidable c] (a b : Except Crash ModExit)
    (t : List Call) : (if c then (a, t) else (b, t)).2 = t := by
  split <;> rfl

theorem stripUnmanagedCreds_none (p : UserParams) :
    stripUnmanagedCreds p Option.none = .ok Option.none := by
  unfold stripUnmanagedCreds
  split <;> rfl

theorem applyStep_trace (p : UserParams) (be : UserBackend)
    (before_user : Option Dict) (np npui : Dict) (uid : String)
    (r3 : RResult) (t2 : List Call) :
    (applyStep p be before_user np npui uid r3 t2).2 = t2 ∨
    (applyStep p be before_user np npui uid r3 t2).2 = t2 ++ [Call.createUser np] ∨
    (applyStep p be before_user np npui uid r3 t2).2 = t2 ++ [Call.removeUser uid] ∨
    (applyStep p be before_user np npui uid r3 t2).2 = t2 ++ [Call.modifyUser np] ∨
    ∃ x, (applyStep p be before_user np npui uid r3 t2).2 =
      t2 ++ [Call.removeKey uid x, Call.modifyUser np] := by
  unfold applyStep
  repeat' split
  all_goals
    first
    | exact Or.inl (finishStep_trace _ _)
    | exact Or.inl rfl
    | exact Or.inr (Or.inl (finishStep_trace _ _))
    | exact Or.inr (Or.inl rfl)
    | exact Or.inr (Or.inr (Or.inl (finishStep_trace _ _)))
    | exact Or.inr (Or.inr (Or.inl rfl))
    | exact Or.inr (Or.inr (Or.inr (Or.inl (finishStep_trace _ _))))
    | exact Or.inr (Or.inr (Or.inr (Or.inl rfl)))
    | exact Or.inr (Or.inr (Or.inr (Or.inr ⟨_, finishStep_trace _ _⟩)))
    | exact Or.inr (Or.inr (Or.inr (Or.inr ⟨_, rfl⟩)))

/-- Every invocation's trace is empty, the usage probe alone, or the probe
followed by the fetch and at most the one or two mutating calls of the
taken apply branch. -/
theorem rgw_users_trace_shape (p : UserParams) (cm dm : Bool) (be : UserBackend) :
    (rgw_users_main p cm dm be).2 = [] ∨
    (rgw_users_main p cm dm be).2 = [Call.getUsage] ∨
    ∃ tail, (rgw_users_main p cm dm be).2 =
        Call.getUsage :: Call.getUser (effUid p) :: tail ∧
      (tail = [] ∨ tail = [Call.createUser (get_user_params p false)] ∨
       tail = [Call.removeUser (effUid p)] ∨
       tail = [Call.modifyUser (get_user_params p false)] ∨
       ∃ x, tail = [Call.removeKey (effUid p) x,
                    Call.modifyUser (get_user_params p false)]) := by
  unfold rgw_users_main
  repeat' split
  all_goals dsimp only
  all_goals try exact Or.inl rfl
  all_goals try exact Or.inr (Or.inl rfl)
  all_goals try exact Or.inr (Or.inr ⟨[], rfl, Or.inl rfl⟩)
  all_goals try exact Or.inr (Or.inr ⟨[], ite_snd _ _ _ _, Or.inl rfl⟩)
  all_goals split
  all_goals try exact Or.inr (Or.inr ⟨[], rfl, Or.inl rfl⟩)
  all_goals
    (rcases applyStep_trace p be _ (get_user_params p false)
        (dremove (get_user_params p true) "uid") (effUid p) _
        [Call.getUsage, Call.getUser (effUid p)] with h | h | h | h | ⟨x, h⟩ <;>
      first
      | exact Or.inr (Or.inr ⟨[], h, Or.inl rfl⟩)
      | exact Or.inr (Or.inr ⟨[Call.createUser (get_user_params p false)], h,
          Or.inr (Or.inl rfl)⟩)
      | exact Or.inr (Or.inr ⟨[Call.removeUser (effUid p)], h,
          Or.inr (Or.inr (Or.inl rfl))⟩)
      | exact Or.inr (Or.inr ⟨[Call.modifyUser (get_user_params p false)], h,
          Or.inr (Or.inr (Or.inr (Or.inl rfl)))⟩)
      | exact Or.inr (Or.inr ⟨[Call.removeKey (effUid p) x,
          Call.modifyUser (get_user_params p false)], h,
          Or.inr (Or.inr (Or.inr (Or.inr ⟨x, rfl⟩)))⟩))

theorem dlookup_gup_uid (p : UserParams) (b : Bool) :
    dlookup (get_user_params p b) "uid" = some (.str (effUid p)) := by
  unfold get_user_params
  cases b <;> cases p.user_access_key <;> simp [dset, dlookup]

theorem get_user_ok_fields (resp : GetUserResp) (r : RResult) (b : Option Dict)
    (r' : RResult) (h : get_user resp r = .ok (b, r')) :
    r'.changed = r.changed ∧ r'.diff = r.diff ∧
    r'.error_messages = r.error_messages := by
  cases resp with
  | raiseOther c => simp [get_user] at h
  | noSuchUser =>
      simp [get_user] at h
      obtain ⟨-, rfl⟩ := h
      exact ⟨rfl, rfl, rfl⟩
  | found u =>
      cases hk : u.keys with
      | nil =>
          simp [get_user, hk] at h
          obtain ⟨-, rfl⟩ := h
          exact ⟨rfl, rfl, rfl⟩
      | cons k ks =>
          simp [get_user, hk] at h
          obtain ⟨-, rfl⟩ := h
          exact ⟨rfl, rfl, rfl⟩

theorem create_user_ok_fields (resp : MutResp) (r r' : RResult)
    (h : create_user resp r = .ok r') :
    r'.changed = r.changed ∧ r'.diff = r.diff := by
  cases resp with
  | keyExists c => simp [create_user] at h; subst h; exact ⟨rfl, rfl⟩
  | rgwError c => simp [create_user] at h; subst h; exact ⟨rfl, rfl⟩
  | ok keys =>
      cases keys with
      | nil => simp [create_user] at h
      | cons k ks => simp [create_user] at h; subst h; exact ⟨rfl, rfl⟩

theorem update_user_ok_fields (resp : MutResp) (r r' : RResult)
    (h : update_user resp r = .ok r') :
    r'.changed = r.changed ∧ r'.diff = r.diff := by
  cases resp with
  | keyExists c => simp [update_user] at h; subst h; exact ⟨rfl, rfl⟩
  | rgwError c => simp [update_user] at h; subst h; exact ⟨rfl, rfl⟩
  | ok keys =>
      cases keys with
      | nil => simp [update_user] at h
      | cons k ks => simp [update_user] at h; subst h; exact ⟨rfl, rfl⟩

theorem remove_key_fields (resp : SimpleResp) (r : RResult) :
    (remove_key resp r).changed = r.changed ∧
    (remove_key resp r).diff = r.diff := by
  cases resp <;> exact ⟨rfl, rfl⟩

theorem delete_user_fields (resp : SimpleResp) (r : RResult) :
    (delete_user resp r).changed = r.changed ∧
    (delete_user resp r).diff = r.diff := by
  cases resp <;> exact ⟨rfl, rfl⟩

theorem finishStep_exit (r : RResult) (t : List Call) (r' : RResult)
    (h : (finishStep r t).1 = .ok (.exitJson r')) : r' = r := by
  unfold finishStep at h
  split at h <;> simp_all

/-- A successful exit of the apply step carries the diff step's `changed`
and `diff` fields unchanged (the mutation helpers only touch the credential
echo fields and the error list). -/
theorem applyStep_exit (p : UserParams) (be : UserBackend) (bu : Option Dict)
    (np npui : Dict) (uid : String) (r3 : RResult) (t2 : List Call)
    (r' : RResult)
    (h : (applyStep p be bu np npui uid r3 t2).1 = .ok (.exitJson r')) :
    r'.changed = r3.changed ∧ r'.diff = r3.diff := by
  unfold applyStep at h
  repeat' split at h
  all_goals try (exfalso; simp_all; done)
  all_goals
    first
    | (obtain rfl := finishStep_exit _ _ _ h; exact ⟨rfl, rfl⟩)
    | (obtain rfl := finishStep_exit _ _ _ h; exact delete_user_fields _ _)
    | (obtain rfl := finishStep_exit _ _ _ h
       exact create_user_ok_fields _ _ _ (by assumption))
    | (obtain rfl := finishStep_exit _ _ _ h
       exact update_user_ok_fields _ _ _ (by assumption))
    | (obtain rfl := finishStep_exit _ _ _ h
       obtain ⟨h1, h2⟩ := update_user_ok_fields _ _ _ (by assumption)
       exact ⟨h1.trans (remove_key_fields _ _).1, h2.trans (remove_key_fields _ _).2⟩)

theorem diffStep_diff_iff (p : UserParams) (dm : Bool) (bu : Option Dict)
    (wo : Dict) (r1 : RResult)
    (hchanged : r1.changed = false) (hdiff : r1.diff = Option.none) :
    (diffStep p dm bu wo r1).diff.isSome = (dm && (diffStep p dm bu wo r1).changed) := by
  unfold diffStep
  cases dm <;> split <;> split <;> simp_all

theorem diffStep_error_messages (p : UserParams) (dm : Bool) (bu : Option Dict)
    (wo : Dict) (r1 : RResult) :
    (diffStep p dm bu wo r1).error_messages = r1.error_messages := by
  unfold diffStep
  dsimp only
  split <;> split <;> rfl

theorem diffStep_changed_present (p : UserParams) (dm : Bool) (bu : Option Dict)
    (wo : Dict) (r1 : RResult)
    (hstate : p.state = "present") (hbeq : optDictBeq bu (some wo) = false) :
    (diffStep p dm bu wo r1).changed = true := by
  unfold diffStep
  rw [hstate]
  simp [hbeq]

/-- The apply step in the credential-change configuration: the observed user
exists, differs from the desired params, and both carry an `access_key`
with different values — exactly the revoke-then-update trace results,
whatever the two calls return. -/
theorem applyStep_cred_change (p : UserParams) (be : UserBackend) (bu : Dict)
    (np npui : Dict) (uid : String) (r3 : RResult) (t2 : List Call)
    (hchanged : r3.changed = true)
    (hstate : p.state = "present")
    (hneq : optDictBeq (some bu) (some npui) = false)
    (dakv oakv : PyVal)
    (hdak : dlookup npui "access_key" = some dakv)
    (hoak : dlookup bu "access_key" = some oakv)
    (hne : (oakv != dakv) = true) :
    (applyStep p be (some bu) np npui uid r3 t2).2 =
      t2 ++ [Call.removeKey uid oakv, Call.modifyUser np] := by
  unfold applyStep
  cases hup : update_user be.modifyResp (remove_key be.removeKeyResp r3) <;>
    simp [hchanged, hstate, hneq, hdak, hoak, hne, finishStep_trace, hup]

/-- Backend whose fetch raises an exception other than `NoSuchUser`. -/
def raiseBackend : UserBackend :=
  { convergedBackend with getUserResp := .raiseOther "AccessDenied" }

/-- A two-entry observed dict holding only the credential pair. -/
def credPairDict : Dict :=
  [("access_key", .str "A"), ("secret_key", .str "B")]

end Rgw

namespace Rgw

/-- Claim C3, amended.  For the user variant the claim holds: `state=absent`
with no user on the backend exits unchanged — `changed=false`, the error
list stays empty, and the trace is exactly the usage probe and the fetch,
with no mutating call. -/
theorem C3_amended_user_absent_noop (p : UserParams) (cm dm : Bool)
    (be : UserBackend)
    (hstate : p.state = "absent")
    (husage : be.usageResp = .ok)
    (hget : be.getUserResp = .noSuchUser)
    (hrt : p.user_access_key.isSome = p.user_secret_key.isSome) :
    rgw_users_main p cm dm be =
      (.ok (.exitJson (initResult p)), [Call.getUsage, Call.getUser (effUid p)]) := by
  unfold rgw_users_main
  rw [hstate, husage, hget, hrt]
  simp [get_user, stripUnmanagedCreds_none, diffStep, applyStep, finishStep, initResult,
        hstate]

/-- Claim C3, witness for the amended theorem at `absentParams`. -/
theorem C3_amended_witness :
    absentParams.state = "absent" ∧
    absentBackend.usageResp = .ok ∧
    absentBackend.getUserResp = .noSuchUser ∧
    absentParams.user_access_key.isSome = absentParams.user_secret_key.isSome ∧
    rgw_users_main absentParams false false absentBackend =
      (.ok (.exitJson (initResult absentParams)),
       [Call.getUsage, Call.getUser (effUid absentParams)]) :=
  ⟨rfl, rfl, rfl, rfl,
   C3_amended_user_absent_noop absentParams false false absentBackend rfl rfl rfl rfl⟩

/-- Claim C4 (confirmed).  With `state=present`, a managed credential pair,
and an observed user whose first key differs from the desired access key,
the invocation issues exactly two mutating calls in order — revoke the old
key, then `modify_user` — and this holds for every possible outcome of the
revoke call (`be.removeKeyResp` is universally quantified), so the update is
attempted even when the revoke fails. -/
theorem C4_revoke_then_update (p : UserParams) (dm : Bool) (be : UserBackend)
    (u : RGWUser) (k : RGWKey) (rest : List RGWKey) (dak dsk : String)
    (hstate : p.state = "present") (hak : p.user_access_key = some dak)
    (hsk : p.user_secret_key = some dsk) (husage : be.usageResp = .ok)
    (hget : be.getUserResp = .found u) (hkeys : u.keys = k :: rest)
    (hne : k.access_key ≠ dak) :
    mutCalls (rgw_users_main p false dm be).2 =
      [Call.removeKey (effUid p) (.str k.access_key),
       Call.modifyUser (get_user_params p false)] := by
  have hbeq : (k.access_key == dak) = false := by simp [hne]
  have hbu : ∃ bu : Dict,
      bu = dset (dset (List.map (fun kv => (kv.1, normVal kv.2))
        [("user_id", u.user_id), ("tenant", u.tenant), ("display_name", u.display_name),
         ("email", u.email), ("max_buckets", u.max_buckets), ("suspended", u.suspended)])
        "access_key" (PyVal.str k.access_key)) "secret_key" (PyVal.str k.secret_key) :=
    ⟨_, rfl⟩
  obtain ⟨bu, hbudef⟩ := hbu
  have hbuval : bu = [("user_id", normVal u.user_id), ("tenant", normVal u.tenant),
      ("display_name", normVal u.display_name), ("email", normVal u.email),
      ("max_buckets", normVal u.max_buckets), ("suspended", normVal u.suspended),
      ("access_key", PyVal.str k.access_key), ("secret_key", PyVal.str k.secret_key)] := by
    rw [hbudef]; simp [dset]
  have hoak : dlookup bu "access_key" = some (PyVal.str k.access_key) := by
    rw [hbuval]; simp [dlookup]
  have hcapsmiss : dlookup bu "user_caps" = Option.none := by
    rw [hbuval]; simp [dlookup]
  have huidmiss : dlookup bu "uid" = Option.none := by
    rw [hbuval]; simp [dlookup]
  have hdak : dlookup (dremove (get_user_params p true) "uid") "access_key" =
      some (PyVal.str dak) := by
    rw [dlookup_dremove_ne _ _ _ (by decide)]
    simp [get_user_params, hak, dset, dlookup]
  have hcaps : (dlookup (dremove (get_user_params p true) "uid") "user_caps").isSome := by
    rw [dlookup_dremove_ne _ _ _ (by decide)]
    simp [get_user_params, hak, dset, dlookup]
  have huid : (dlookup (dremove (get_user_params p true) "user_caps") "uid").isSome := by
    rw [dlookup_dremove_ne _ _ _ (by decide), dlookup_gup_uid]
    rfl
  have hneq1 : optDictBeq (some bu)
      (some (dremove (get_user_params p true) "user_caps")) = false :=
    dictBeq_false_of_missing _ _ "uid" huid huidmiss
  have hneq2 : optDictBeq (some bu)
      (some (dremove (get_user_params p true) "uid")) = false :=
    dictBeq_false_of_missing _ _ "user_caps" hcaps hcapsmiss
  unfold rgw_users_main
  rw [hstate, hak, hsk, husage, hget]
  simp only [get_user, hkeys, ← hbudef]
  rw [show stripUnmanagedCreds p (some bu) = .ok (some bu) by
    unfold stripUnmanagedCreds; rw [hak]; rfl]
  simp only [diffStep_error_messages, initResult]
  simp only [bne_self_eq_false, Bool.false_and, Bool.false_eq_true, if_false,
    Option.isSome_some, List.length_nil, gt_iff_lt, lt_irrefl]
  rw [applyStep_cred_change p be bu (get_user_params p false)
      (dremove (get_user_params p true) "uid") (effUid p)
      (diffStep p dm (some bu) (dremove (get_user_params p true) "user_caps")
        { changed := false
          msg := Option.none
          error_messages := []
          uid := some (effUid p)
          access_key := some k.access_key
          secret_key := some k.secret_key
          diff := Option.none })
      [Call.getUsage, Call.getUser (effUid p)]
      (diffStep_changed_present _ _ _ _ _ hstate hneq1) hstate hneq2
      (PyVal.str dak) (PyVal.str k.access_key) hdak hoak
      (by simp [bne, BEq.beq, PyVal.beq, hbeq]; exact hne)]
  simp [mutCalls, isMutatingCall]

/-- Claim C4, witness: a user whose old key `AK` differs from the desired
`NEWAK` produces the revoke-then-update trace. -/
theorem C4_witness :
    managedKeyParams.state = "present" ∧
    managedKeyParams.user_access_key = some "NEWAK" ∧
    managedKeyParams.user_secret_key = some "NEWSK" ∧
    convergedBackend.usageResp = .ok ∧
    convergedBackend.getUserResp = .found convergedUser ∧
    convergedUser.keys = ⟨"AK", "SK"⟩ :: [] ∧
    "AK" ≠ "NEWAK" ∧
    mutCalls (rgw_users_main managedKeyParams false false convergedBackend).2 =
      [Call.removeKey (effUid managedKeyParams) (.str "AK"),
       Call.modifyUser (get_user_params managedKeyParams false)] :=
  ⟨rfl, rfl, rfl, rfl, rfl, rfl, by decide,
   C4_revoke_then_update managedKeyParams false convergedBackend convergedUser
     ⟨"AK", "SK"⟩ [] "NEWAK" "NEWSK" rfl rfl rfl rfl rfl rfl (by decide)⟩

/-- Claim C5, amended.  For the user variant: (1) every call issued before
the first `getUser` fetch of any invocation is non-mutating; (2) when the
fetch raises anything other than `NoSuchUser`, the invocation aborts through
that unhandled exception with no mutating call issued (and no error message
recorded — the module dies); (3) a `NoSuchUser` response yields a null
observed state and leaves the result untouched (not an error). -/
theorem C5_amended_user_fetch_first (p : UserParams) (cm dm : Bool)
    (be : UserBackend) :
    noMutBeforeFetch (rgw_users_main p cm dm be).2 = true ∧
    (∀ code, (p.state = "present" ∨ p.state = "absent") →
       p.user_access_key.isSome = p.user_secret_key.isSome →
       be.usageResp = .ok → be.getUserResp = .raiseOther code →
       rgw_users_main p cm dm be =
         (.error (.uncaught code), [Call.getUsage, Call.getUser (effUid p)])) ∧
    (∀ r, get_user GetUserResp.noSuchUser r = .ok (Option.none, r)) := by
  refine ⟨?_, ?_, fun r => rfl⟩
  · rcases rgw_users_trace_shape p cm dm be with h | h | ⟨tail, h, htail⟩ <;> rw [h]
    · rfl
    · rfl
    · simp [noMutBeforeFetch, isMutatingCall]
  · intro code hstate hrt husage hget
    unfold rgw_users_main
    rw [husage, hget, hrt]
    rcases hstate with h | h <;> rw [h] <;> simp [get_user]

/-- Claim C5, witness for the amended theorem: a fetch failing with an
`AccessDenied`-style exception aborts the run fetch-first and unmutated. -/
theorem C5_amended_witness :
    noMutBeforeFetch (rgw_users_main convergedParams false false raiseBackend).2 = true ∧
    (convergedParams.state = "present" ∨ convergedParams.state = "absent") ∧
    convergedParams.user_access_key.isSome = convergedParams.user_secret_key.isSome ∧
    raiseBackend.usageResp = .ok ∧
    raiseBackend.getUserResp = .raiseOther "AccessDenied" ∧
    rgw_users_main convergedParams false false raiseBackend =
      (.error (.uncaught "AccessDenied"),
       [Call.getUsage, Call.getUser (effUid convergedParams)]) ∧
    get_user GetUserResp.noSuchUser (initResult convergedParams) =
      .ok (Option.none, initResult convergedParams) :=
  ⟨(C5_amended_user_fetch_first convergedParams false false raiseBackend).1,
   Or.inl rfl, rfl, rfl, rfl,
   (C5_amended_user_fetch_first convergedParams false false raiseBackend).2.1
     "AccessDenied" (Or.inl rfl) rfl rfl rfl,
   (C5_amended_user_fetch_first convergedParams false false raiseBackend).2.2
     (initResult convergedParams)⟩

/-- Claim C7 (confirmed).  In every invocation, every backend call that
carries a resource identifier carries the effective uid
(`tenant$user_id` when a tenant is set, else `user_id`): the fetch, the
delete and the credential revoke receive it directly, and the create/update
params dict holds it under its `uid` key. -/
theorem C7_uid_every_call (p : UserParams) (cm dm : Bool) (be : UserBackend) :
    ((rgw_users_main p cm dm be).2.all (callUidOk p)) = true := by
  rcases rgw_users_trace_shape p cm dm be with h | h | ⟨tail, h, htail⟩ <;> rw [h]
  · rfl
  · rfl
  · rcases htail with rfl | rfl | rfl | rfl | ⟨x, rfl⟩ <;>
      simp [callUidOk, dlookup_gup_uid]

/-- Claim C8, amended.  When the desired spec does not manage credentials:
(1) if the observed dict holds the credential fields, the strip removes
exactly those two fields before any comparison (so unmanaged credential
values cannot influence the diff); (2) if the observed user has zero keys,
the unconditional deletion instead raises `KeyError('access_key')` and the
invocation crashes before any comparison. -/
theorem C8_amended_cred_strip (p : UserParams) (cm dm : Bool) (be : UserBackend)
    (u : RGWUser) (d : Dict)
    (hak : p.user_access_key = Option.none) :
    ((dlookup d "access_key").isSome → (dlookup d "secret_key").isSome →
      ∃ d', stripUnmanagedCreds p (some d) = .ok (some d') ∧
        dlookup d' "access_key" = Option.none ∧
        dlookup d' "secret_key" = Option.none) ∧
    (p.user_secret_key = Option.none → (p.state = "present" ∨ p.state = "absent") →
      be.usageResp = .ok → be.getUserResp = .found u → u.keys = [] →
      (rgw_users_main p cm dm be).1 = .error (.keyError "access_key")) := by
  constructor
  · intro h1 h2
    refine ⟨dremove (dremove d "access_key") "secret_key", ?_, ?_, ?_⟩
    · unfold stripUnmanagedCreds
      rw [hak]
      simp only [Option.isNone_none, if_true]
      unfold ddel
      rw [if_pos h1]
      dsimp only
      rw [dlookup_dremove_ne _ _ _ (by decide), h2]
      simp
    · rw [dlookup_dremove_ne _ _ _ (by decide)]
      exact dlookup_dremove_self d "access_key"
    · exact dlookup_dremove_self _ "secret_key"
  · intro hsk hstate husage hget hkeys
    unfold rgw_users_main
    rw [husage, hget, hak, hsk]
    rcases hstate with h | h <;> rw [h] <;>
      simp [get_user, hkeys, stripUnmanagedCreds, hak, ddel, dlookup, normVal]

/-- Claim C8, witness: the strip on a dict holding both credential fields,
and the zero-keys crash at `zeroKeyBackend`. -/
theorem C8_amended_witness :
    convergedParams.user_access_key = Option.none ∧
    (dlookup credPairDict "access_key").isSome = true ∧
    (dlookup credPairDict "secret_key").isSome = true ∧
    (∃ d', stripUnmanagedCreds convergedParams (some credPairDict) = .ok (some d') ∧
      dlookup d' "access_key" = Option.none ∧
      dlookup d' "secret_key" = Option.none) ∧
    convergedParams.user_secret_key = Option.none ∧
    zeroKeyBackend.getUserResp = .found zeroKeyUser ∧
    zeroKeyUser.keys = [] ∧
    (rgw_users_main convergedParams false false zeroKeyBackend).1 =
      .error (.keyError "access_key") := by
  have h := C8_amended_cred_strip convergedParams false false zeroKeyBackend
    zeroKeyUser credPairDict rfl
  exact ⟨rfl, by decide, by decide, h.1 (by decide) (by decide), rfl, rfl, rfl,
    h.2 rfl (Or.inl rfl) rfl rfl rfl⟩

/-- Claim C9, amended.  Every successful `exit_json` result carries a `diff`
pair exactly when diff reporting was requested *and* the diff computation
set `changed` — never when `changed` is false (the module attaches `diff`
only inside its `changed := true` branches). -/
theorem C9_amended_diff_iff_changed (p : UserParams) (cm dm : Bool)
    (be : UserBackend) (r : RResult)
    (h : (rgw_users_main p cm dm be).1 = .ok (.exitJson r)) :
    r.diff.isSome = (dm && r.changed) := by
  unfold rgw_users_main at h
  dsimp only at h
  repeat' split at h
  all_goals try (exfalso; simp_all; done)
  all_goals
    obtain ⟨hc, hd, he⟩ := get_user_ok_fields _ _ _ _ (by assumption)
  · simp only [Prod.fst, Except.ok.injEq, ModExit.exitJson.injEq] at h
    rw [← h]
    exact diffStep_diff_iff _ _ _ _ _ (hc.trans rfl) (hd.trans rfl)
  · obtain ⟨hc2, hd2⟩ := applyStep_exit _ _ _ _ _ _ _ _ _ h
    rw [hc2, hd2]
    exact diffStep_diff_iff _ _ _ _ _ (hc.trans rfl) (hd.trans rfl)

/-- Claim C9, witness for the amended theorem: the unchanged absent run with
diff requested carries no diff pair. -/
theorem C9_amended_witness :
    (rgw_users_main absentParams false true absentBackend).1 =
      .ok (.exitJson (initResult absentParams)) ∧
    (initResult absentParams).diff.isSome = (true && (initResult absentParams).changed) :=
  ⟨rfl, C9_amended_diff_iff_changed absentParams false true absentBackend
    (initResult absentParams) rfl⟩

end Rgw
